import Mathlib

/-!
Verification development for the collabland/accountkit-sdk client library.

The embedding models `src/client.ts` (BaseClient, AccountKitV1Client,
AccountKitV2Client, AccountKit), `src/utils/logger.ts` (Logger) and the
request/response types of `src/types.ts`.

Modelling conventions:
- TypeScript string enums are erased at runtime, so a field typed with the
  `Environment` enum actually holds an arbitrary string at runtime; the
  constructor compares it with `===` against the enum member value "PROD".
  We therefore model the environment field as a `String` and the two enum
  members as the string constants they compile to.
- JavaScript object literals (header maps) are modelled as association
  lists with object-literal update semantics: assigning to an existing key
  replaces its value in place, assigning a fresh key appends it
  (`objInsert` / `objExtend` below model the spread operator).
- JavaScript truthiness of strings (`if (config.baseUrl)`) is explicit:
  the empty string is falsy, so it is treated like an absent value.
- The process environment consulted by header redaction is passed in as an
  explicit snapshot of its values (`envValues`).
- Logging through the `debug` library is modelled as a list of emitted
  events, gated on the logger's enabled flag; the HTTP exchange itself is
  modelled as an explicit transport outcome (`Except` of a failure or an
  axios-style response).
-/

namespace AccountKit

/-! ### Object-literal association maps -/

/-- First-match lookup in a JS-object-style association list. -/
def getHeader {α : Type} : List (String × α) → String → Option α
  | [], _ => none
  | p :: rest, k => if p.1 = k then some p.2 else getHeader rest k

/-- Key-presence test in a JS-object-style association list. -/
def hasKey {α : Type} : List (String × α) → String → Bool
  | [], _ => false
  | p :: rest, k => if p.1 = k then true else hasKey rest k

/-- Assignment of one key in a JS object literal: replaces the value in
place when the key exists, appends otherwise. -/
def objInsert {α : Type} (m : List (String × α)) (k : String) (v : α) :
    List (String × α) :=
  if hasKey m k then m.map (fun p => if p.1 = k then (k, v) else p)
  else m ++ [(k, v)]

/-- Spreading one object literal over another, later assignments winning on
key collision, exactly as the JS spread operator behaves. -/
def objExtend {α : Type} (m : List (String × α)) : List (String × α) → List (String × α)
  | [] => m
  | p :: rest => objExtend (objInsert m p.1 p.2) rest

/-! ### Enumerations and configuration (src/types.ts) -/

/-- Runtime value of the TS enum member Environment.PROD. -/
def Environment.PROD : String := "PROD"

/-- Runtime value of the TS enum member Environment.QA. -/
def Environment.QA : String := "QA"

/-- The Platform enum of src/types.ts. -/
inductive Platform where
  | TELEGRAM
  | TWITTER
  | GITHUB

/-- Runtime string value of a Platform enum member. -/
def Platform.val : Platform → String
  | .TELEGRAM => "telegram"
  | .TWITTER => "twitter"
  | .GITHUB => "github"

/-- The SolanaNetwork enum of src/types.ts. -/
inductive SolanaNetwork where
  | SOLANA_MAINNET
  | SOLANA_DEVNET

/-- Runtime string value of a SolanaNetwork enum member. -/
def SolanaNetwork.val : SolanaNetwork → String
  | .SOLANA_MAINNET => "SOL"
  | .SOLANA_DEVNET => "SOL_DEVNET"

/-- ClientConfig of src/types.ts.  The environment field is a runtime
string (see the enum-erasure note above); optional fields are `Option`. -/
structure ClientConfig where
  apiKey : String
  environment : String
  baseUrl : Option String
  timeout : Option Int
  debug : Option Bool
  headers : Option (List (String × String))

/-- The extra-headers mapping of a configuration, with `config.headers ?? \x7b\x7d`
semantics. -/
def cfgHeaders (cfg : ClientConfig) : List (String × String) :=
  cfg.headers.getD []

/-! ### Request/response payload shapes (src/types.ts) -/

/-- SubmitEvmUserOpRequest of src/types.ts. -/
structure SubmitEvmUserOpRequest where
  target : String
  callData : String
  value : String

/-- PlatformSubmitUserOperationsRequest of src/types.ts (V2 batched ops). -/
structure PlatformSubmitUserOperationsRequest where
  userOps : List SubmitEvmUserOpRequest

/-- CalculateAccountAddressRequest of src/types.ts; the platform field
carries the runtime string of the Platform enum member. -/
structure CalculateAccountAddressRequest where
  platform : String
  userId : String

/-- SubmitSolanaTransactionRequest of src/types.ts. -/
structure SubmitSolanaTransactionRequest where
  serializedTransactionBase64 : String

/-- Metadata block of MintWowTokenRequest in src/types.ts. -/
structure WowTokenMetadata where
  description : String
  website_link : String
  twitter : String
  discord : String
  telegram : String
  nsfw : Bool
  image : String

/-- MintWowTokenRequest of src/types.ts. -/
structure MintWowTokenRequest where
  name : String
  symbol : String
  metadata : WowTokenMetadata
  recipient : String

/-- ExecuteLitActionRequest of src/types.ts; the AnyType-valued
actionJsParams record is modelled as a string-valued association list. -/
structure ExecuteLitActionRequest where
  actionIpfs : String
  actionJsParams : List (String × String)

/-- The JSON body a method attaches to its request, tagged by payload
shape. `empty` is a GET request (no body). -/
inductive Body where
  | empty
  | evmUserOp (r : SubmitEvmUserOpRequest)
  | platformUserOps (r : PlatformSubmitUserOperationsRequest)
  | calcAddress (r : CalculateAccountAddressRequest)
  | solanaTx (r : SubmitSolanaTransactionRequest)
  | litAction (r : ExecuteLitActionRequest)
  | wowMint (r : MintWowTokenRequest)

/-! ### Base client construction (src/client.ts, BaseClient.constructor) -/

/-- Production host hard-coded in BaseClient.constructor. -/
def prodBaseUrl : String := "https://api.collab.land"

/-- QA host hard-coded in BaseClient.constructor. -/
def qaBaseUrl : String := "https://api-qa.collab.land"

/-- The environment-derived host: the constructor's ternary compares the
runtime environment string with the PROD member value and falls through to
the QA host on ANY other value. -/
def envDefaultUrl (environment : String) : String :=
  if environment = Environment.PROD then prodBaseUrl else qaBaseUrl

/-- Base-URL resolution of BaseClient.constructor.  The source guard is
the JS truthiness test `if (config.baseUrl)`, so an absent override and an
empty-string override both fall through to the environment-derived host. -/
def resolveBaseUrl (cfg : ClientConfig) : String :=
  match cfg.baseUrl with
  | some u => if u = "" then envDefaultUrl cfg.environment else u
  | none => envDefaultUrl cfg.environment

/-- Default header object passed to axios.create: the Content-Type and
X-API-KEY literals, then `...config.headers` spread over them. -/
def defaultHeaders (cfg : ClientConfig) : List (String × String) :=
  objExtend [("Content-Type", "application/json"), ("X-API-KEY", cfg.apiKey)]
    (cfgHeaders cfg)

/-- Timeout resolution `config.timeout || 60000` (JS `||`, so 0 is
replaced by the default). -/
def effectiveTimeout (cfg : ClientConfig) : Int :=
  match cfg.timeout with
  | some t => if t = 0 then 60000 else t
  | none => 60000

/-- Logger of src/utils/logger.ts: a namespace string and the enabled
flag that gates event emission. -/
structure Logger where
  names : String
  enabled : Bool

/-- The state BaseClient.constructor establishes. -/
structure BaseClient where
  apiKey : String
  baseUrl : String
  timeout : Int
  defaultHdrs : List (String × String)
  logger : Logger
  config : ClientConfig

/-- BaseClient.constructor: stores the key, resolves the base URL, builds
the axios default headers and the logger (`config.debug || false`).  Note
it is total: no environment validation is performed anywhere. -/
def mkBaseClient (cfg : ClientConfig) : BaseClient :=
  ⟨cfg.apiKey, resolveBaseUrl cfg, effectiveTimeout cfg, defaultHeaders cfg,
    ⟨"accountkit", cfg.debug.getD false⟩, cfg⟩

/-! ### Versioned endpoint methods (src/client.ts, V1 and V2 clients) -/

/-- A query-parameter value: axios params carry strings (enum values) or
numbers (chain ids). -/
inductive PVal where
  | s (v : String)
  | n (v : Int)

/-- One method invocation on AccountKitV1Client or AccountKitV2Client,
with the caller-supplied arguments of the corresponding TS method. -/
inductive ApiCall where
  | telegramBotGetSmartAccounts (botToken : String)
  | telegramBotSubmitSolanaTransaction (botToken : String)
      (serializedTransactionBase64 : String) (network : SolanaNetwork)
  | telegramBotGetSolanaTransactionResponse (botToken : String)
      (signature : String) (network : SolanaNetwork)
  | telegramBotSubmitEvmUserOperation (botToken : String)
      (userOp : SubmitEvmUserOpRequest) (chainId : Int)
  | telegramBotGetEvmUserOperationReceipt (botToken : String)
      (userOpHash : String) (chainId : Int)
  | executeLitAction (botToken : String) (actionIpfs : String)
      (actionJsParams : List (String × String)) (chainId : Int)
  | mintWowToken (botToken : String) (tokenData : MintWowTokenRequest)
      (chainId : Int)
  | getSmartAccountDetails (platform : Platform) (accessToken : String)
  | calculateAccountAddress (platform : Platform) (userId : String)
  | submitEvmUserOperation (platform : Platform) (accessToken : String)
      (userOp : PlatformSubmitUserOperationsRequest) (chainId : Int)
  | submitSolanaTransaction (platform : Platform) (accessToken : String)
      (network : SolanaNetwork) (serializedTransactionBase64 : String)

/-- HTTP verb. -/
inductive Method where
  | get
  | post
  | put
  | delete

/-- The verb each method uses (BaseClient.get / BaseClient.post). -/
def callMethod : ApiCall → Method
  | .telegramBotGetSmartAccounts _ => .get
  | .telegramBotSubmitSolanaTransaction .. => .post
  | .telegramBotGetSolanaTransactionResponse .. => .get
  | .telegramBotSubmitEvmUserOperation .. => .post
  | .telegramBotGetEvmUserOperationReceipt .. => .get
  | .executeLitAction .. => .post
  | .mintWowToken .. => .post
  | .getSmartAccountDetails .. => .get
  | .calculateAccountAddress .. => .post
  | .submitEvmUserOperation .. => .post
  | .submitSolanaTransaction .. => .post

/-- The path literal each method passes to the transport. -/
def callPath : ApiCall → String
  | .telegramBotGetSmartAccounts _ => "/accountkit/v1/telegrambot/accounts"
  | .telegramBotSubmitSolanaTransaction .. => "/accountkit/v1/telegrambot/solana/submitTransaction"
  | .telegramBotGetSolanaTransactionResponse .. => "/accountkit/v1/telegrambot/solana/transactionResponse"
  | .telegramBotSubmitEvmUserOperation .. => "/accountkit/v1/telegrambot/evm/submitUserOperation"
  | .telegramBotGetEvmUserOperationReceipt .. => "/accountkit/v1/telegrambot/evm/userOperationReceipt"
  | .executeLitAction .. => "/accountkit/v1/telegrambot/executeActionUsingPKP"
  | .mintWowToken .. => "/accountkit/v1/telegrambot/wow/mint"
  | .getSmartAccountDetails .. => "/accountkit/v2/platform/accounts"
  | .calculateAccountAddress .. => "/accountkit/v2/evm/calculateAccountAddress"
  | .submitEvmUserOperation .. => "/accountkit/v2/platform/evm/submitUserOperation"
  | .submitSolanaTransaction .. => "/accountkit/v2/platform/solana/submitTransaction"

/-- The per-call `headers` object each method passes in its axios request
config (methods that pass no config contribute the empty object). -/
def callHeaders : ApiCall → List (String × String)
  | .telegramBotGetSmartAccounts bt => [("X-TG-BOT-TOKEN", bt)]
  | .telegramBotSubmitSolanaTransaction bt _ _ => [("X-TG-BOT-TOKEN", bt)]
  | .telegramBotGetSolanaTransactionResponse bt _ _ => [("X-TG-BOT-TOKEN", bt)]
  | .telegramBotSubmitEvmUserOperation bt _ _ => [("X-TG-BOT-TOKEN", bt)]
  | .telegramBotGetEvmUserOperationReceipt bt _ _ => [("X-TG-BOT-TOKEN", bt)]
  | .executeLitAction bt _ _ _ => [("X-TG-BOT-TOKEN", bt)]
  | .mintWowToken bt _ _ => [("X-TG-BOT-TOKEN", bt)]
  | .getSmartAccountDetails _ tok => [("X-ACCESS-TOKEN", tok)]
  | .calculateAccountAddress _ _ => []
  | .submitEvmUserOperation _ tok _ _ => [("X-ACCESS-TOKEN", tok)]
  | .submitSolanaTransaction _ tok _ _ => [("X-ACCESS-TOKEN", tok)]

/-- The per-call `params` object each method passes in its axios request
config, in the source's literal key order. -/
def callParams : ApiCall → List (String × PVal)
  | .telegramBotGetSmartAccounts _ => []
  | .telegramBotSubmitSolanaTransaction _ _ network => [("network", .s network.val)]
  | .telegramBotGetSolanaTransactionResponse _ sig network =>
      [("network", .s network.val), ("txSignatureBase64", .s sig)]
  | .telegramBotSubmitEvmUserOperation _ _ chainId => [("chainId", .n chainId)]
  | .telegramBotGetEvmUserOperationReceipt _ h chainId =>
      [("chainId", .n chainId), ("userOperationHash", .s h)]
  | .executeLitAction _ _ _ chainId => [("chainId", .n chainId)]
  | .mintWowToken _ _ chainId => [("chainId", .n chainId)]
  | .getSmartAccountDetails p _ => [("platform", .s p.val)]
  | .calculateAccountAddress _ _ => []
  | .submitEvmUserOperation p _ _ chainId => [("chainId", .n chainId), ("platform", .s p.val)]
  | .submitSolanaTransaction p _ network _ => [("platform", .s p.val), ("network", .s network.val)]

/-- The body each method passes to post (GET methods carry none). -/
def callBody : ApiCall → Body
  | .telegramBotGetSmartAccounts _ => .empty
  | .telegramBotSubmitSolanaTransaction _ ser _ => .solanaTx ⟨ser⟩
  | .telegramBotGetSolanaTransactionResponse .. => .empty
  | .telegramBotSubmitEvmUserOperation _ op _ => .evmUserOp op
  | .telegramBotGetEvmUserOperationReceipt .. => .empty
  | .executeLitAction _ ipfs ps _ => .litAction ⟨ipfs, ps⟩
  | .mintWowToken _ td _ => .wowMint td
  | .getSmartAccountDetails .. => .empty
  | .calculateAccountAddress p uid => .calcAddress ⟨p.val, uid⟩
  | .submitEvmUserOperation _ _ op _ => .platformUserOps op
  | .submitSolanaTransaction _ _ _ ser => .solanaTx ⟨ser⟩

/-- The outbound request: verb, path, query parameters, the merged header
object (axios instance defaults extended by the per-call headers, per-call
winning on collision) and the body. -/
structure RequestEnvelope where
  method : Method
  path : String
  query : List (String × PVal)
  headers : List (String × String)
  body : Body

/-- Composition of one outbound request from the configuration and one
method call, as BaseClient.get/post perform it through axios. -/
def buildRequest (cfg : ClientConfig) (call : ApiCall) : RequestEnvelope :=
  ⟨callMethod call, callPath call, callParams call,
    objExtend (defaultHeaders cfg) (callHeaders call), callBody call⟩

/-! ### Transport outcome, normalization and interceptors -/

/-- An axios response (data, status, headers). -/
structure AxiosResponse (T : Type) where
  data : T
  status : Nat
  headers : List (String × String)

/-- ApiResponse of src/types.ts, the envelope formatResponse returns. -/
structure ApiResponse (T : Type) where
  data : T
  status : Nat
  headers : List (String × String)

/-- An axios rejection: either a completed non-success response, or a
transport-level failure with no response. -/
inductive AxiosFailure (T : Type) where
  | httpError (response : AxiosResponse T)
  | networkError (message : String)

/-- BaseClient.formatResponse: projects data, status and headers. -/
def formatResponse {T : Type} (r : AxiosResponse T) : ApiResponse T :=
  ⟨r.data, r.status, r.headers⟩

/-- Axios's default validateStatus: 2xx statuses fulfil, others reject. -/
def isSuccessStatus (s : Nat) : Bool :=
  decide (200 ≤ s) && decide (s < 300)

/-- Axios's classification of a completed response: a 2xx response
fulfils the promise, any other status rejects with an error carrying the
full response. -/
def classifyResponse {T : Type} (r : AxiosResponse T) :
    Except (AxiosFailure T) (AxiosResponse T) :=
  if isSuccessStatus r.status then Except.ok r
  else Except.error (AxiosFailure.httpError r)

/-- Events the response interceptor logs. -/
inductive ResponseLogEvent (T : Type) where
  | responseTrace (status : Nat) (headers : List (String × String)) (data : T)
  | responseError (failure : AxiosFailure T)

/-- Emission through the debug library, gated on the enabled flag
(Logger of src/utils/logger.ts). -/
def emitIf {α : Type} (enabled : Bool) (ev : α) : List α :=
  if enabled then [ev] else []

/-- Response interceptor of BaseClient.setupInterceptors: logs and returns
the response unchanged on fulfilment, logs and re-rejects the error
unchanged on rejection. -/
def responseInterceptor {T : Type} (lg : Logger)
    (o : Except (AxiosFailure T) (AxiosResponse T)) :
    Except (AxiosFailure T) (AxiosResponse T) × List (ResponseLogEvent T) :=
  match o with
  | .ok r => (.ok r, emitIf lg.enabled (.responseTrace r.status r.headers r.data))
  | .error e => (.error e, emitIf lg.enabled (.responseError e))

/-- The full response path of BaseClient.get/post: interceptor, then
formatResponse on the fulfilled branch only. -/
def completeCall {T : Type} (lg : Logger)
    (o : Except (AxiosFailure T) (AxiosResponse T)) :
    Except (AxiosFailure T) (ApiResponse T) × List (ResponseLogEvent T) :=
  ((responseInterceptor lg o).1.map formatResponse, (responseInterceptor lg o).2)

/-! ### Header redaction and the request interceptor -/

/-- The sensitive-value pool of BaseClient.redactSensitiveHeaders: the
values of the process-environment snapshot plus the values of
`config.headers ?? \x7b\x7d`. -/
def sensitiveValues (envValues : List String) (cfg : ClientConfig) : List String :=
  envValues ++ (cfgHeaders cfg).map Prod.snd

/-- BaseClient.redactSensitiveHeaders: copies the header object and masks
every entry whose value occurs in the sensitive-value pool. -/
def redactSensitiveHeaders (envValues : List String) (cfg : ClientConfig)
    (headers : List (String × String)) : List (String × String) :=
  headers.map (fun p =>
    if p.2 ∈ sensitiveValues envValues cfg then (p.1, "********") else p)

/-- The event the request interceptor logs: method, url, redacted header
set and body. -/
structure RequestLogEvent where
  method : Method
  url : String
  headers : List (String × String)
  body : Body

/-- Request interceptor of BaseClient.setupInterceptors: logs the request
with redacted headers and returns the request itself unchanged. -/
def requestInterceptor (envValues : List String) (cfg : ClientConfig)
    (lg : Logger) (req : RequestEnvelope) :
    RequestEnvelope × List RequestLogEvent :=
  (req, emitIf lg.enabled
    ⟨req.method, req.path, redactSensitiveHeaders envValues cfg req.headers, req.body⟩)

/-- One dispatched request of a method call: request composition followed
by the request interceptor (the pair is the wire request and the emitted
log events). -/
def dispatchRequest (envValues : List String) (cfg : ClientConfig)
    (call : ApiCall) : RequestEnvelope × List RequestLogEvent :=
  requestInterceptor envValues cfg (mkBaseClient cfg).logger (buildRequest cfg call)

/-- Replace the debug flag of a configuration, leaving everything else
unchanged (used to compare debug-on and debug-off runs). -/
def setDebug (cfg : ClientConfig) (d : Option Bool) : ClientConfig :=
  ⟨cfg.apiKey, cfg.environment, cfg.baseUrl, cfg.timeout, d, cfg.headers⟩

/-! ### Declared response shapes (src/types.ts field lists) -/

/-- Field names of GetSmartAccountAddressResponse. -/
def getSmartAccountAddressResponseFields : List String :=
  ["pkpAddress", "evm", "solana"]

/-- Field names of CalculateAccountAddressResponse, which src/types.ts
declares as Omit of GetSmartAccountAddressResponse at the key solana. -/
def calculateAccountAddressResponseFields : List String :=
  getSmartAccountAddressResponseFields.filter (fun f => f ≠ "solana")

/-- Field names of SubmitEvmUserOpResponse. -/
def submitEvmUserOpResponseFields : List String :=
  ["userOperationHash", "chainId"]

/-- Field names of SubmitSolanaTransactionResponse. -/
def submitSolanaTransactionResponseFields : List String :=
  ["txSignature"]

/-- Field names of UserOperationReceipt. -/
def userOperationReceiptFields : List String :=
  ["userOpHash", "entryPoint", "sender", "nonce", "paymaster",
   "actualGasUsed", "actualGasCost", "success", "receipt", "logs"]

/-- The declared (compile-time) response shape of each method, as the
field-name list of its TS response type. -/
def responseFields : ApiCall → List String
  | .telegramBotGetSmartAccounts _ => getSmartAccountAddressResponseFields
  | .telegramBotSubmitSolanaTransaction .. => submitSolanaTransactionResponseFields
  | .telegramBotGetSolanaTransactionResponse .. => ["response"]
  | .telegramBotSubmitEvmUserOperation .. => submitEvmUserOpResponseFields
  | .telegramBotGetEvmUserOperationReceipt .. => userOperationReceiptFields
  | .executeLitAction .. => ["response"]
  | .mintWowToken .. => ["response"]
  | .getSmartAccountDetails .. => getSmartAccountAddressResponseFields
  | .calculateAccountAddress .. => calculateAccountAddressResponseFields
  | .submitEvmUserOperation .. => submitEvmUserOpResponseFields
  | .submitSolanaTransaction .. => submitSolanaTransactionResponseFields

/-! ### Spec-side auth-header table (spec section 4.3): which call-level
token header each method is documented to attach -/

/-- The bot token the spec's auth table expects on a given method call:
present exactly on the V1 telegram-bot methods. -/
def expectedBotToken : ApiCall → Option String
  | .telegramBotGetSmartAccounts bt => some bt
  | .telegramBotSubmitSolanaTransaction bt _ _ => some bt
  | .telegramBotGetSolanaTransactionResponse bt _ _ => some bt
  | .telegramBotSubmitEvmUserOperation bt _ _ => some bt
  | .telegramBotGetEvmUserOperationReceipt bt _ _ => some bt
  | .executeLitAction bt _ _ _ => some bt
  | .mintWowToken bt _ _ => some bt
  | _ => none

/-- The platform access token the spec's auth table expects on a given
method call: present exactly on the V2 token-authenticated methods (not on
the counterfactual calculateAccountAddress). -/
def expectedAccessToken : ApiCall → Option String
  | .getSmartAccountDetails _ tok => some tok
  | .submitEvmUserOperation _ tok _ _ => some tok
  | .submitSolanaTransaction _ tok _ _ => some tok
  | _ => none

/-! ### Lemmas about object-literal maps -/

theorem getHeader_append_single_self {α : Type} (m : List (String × α)) (k : String) (v : α)
    (h : hasKey m k = false) : getHeader (m ++ [(k, v)]) k = some v := by
  induction m with
  | nil => simp [getHeader]
  | cons p rest ih =>
    by_cases hk : p.1 = k
    · simp [hasKey, hk] at h
    · have h' : hasKey rest k = false := by simpa [hasKey, hk] using h
      simpa [getHeader, hk] using ih h'

theorem getHeader_replace_self {α : Type} (m : List (String × α)) (k : String) (v : α)
    (h : hasKey m k = true) :
    getHeader (m.map (fun p => if p.1 = k then (k, v) else p)) k = some v := by
  induction m with
  | nil => simp [hasKey] at h
  | cons p rest ih =>
    by_cases hk : p.1 = k
    · simp [getHeader, hk]
    · have h' : hasKey rest k = true := by simpa [hasKey, hk] using h
      simpa [getHeader, hk] using ih h'

theorem getHeader_objInsert_self {α : Type} (m : List (String × α)) (k : String) (v : α) :
    getHeader (objInsert m k v) k = some v := by
  by_cases h : hasKey m k = true
  · simp only [objInsert, h, if_true]
    exact getHeader_replace_self m k v h
  · rw [Bool.not_eq_true] at h
    simp only [objInsert, h, Bool.false_eq_true, if_false]
    exact getHeader_append_single_self m k v h

theorem getHeader_replace_ne {α : Type} (m : List (String × α)) (k : String) (v : α)
    (q : String) (hne : q ≠ k) :
    getHeader (m.map (fun p => if p.1 = k then (k, v) else p)) q = getHeader m q := by
  induction m with
  | nil => rfl
  | cons p rest ih =>
    by_cases hk : p.1 = k
    · have h1 : ¬ (k = q) := fun hh => hne hh.symm
      have h2 : ¬ (p.1 = q) := by rw [hk]; exact h1
      simp [getHeader, hk, h1, h2, ih]
    · by_cases hq : p.1 = q
      · simp [getHeader, hk, hq, hne]
      · simp [getHeader, hk, hq, ih]

theorem getHeader_append_single_ne {α : Type} (m : List (String × α)) (k : String) (v : α)
    (q : String) (hne : q ≠ k) :
    getHeader (m ++ [(k, v)]) q = getHeader m q := by
  induction m with
  | nil =>
    have h1 : ¬ (k = q) := fun hh => hne hh.symm
    simp [getHeader, h1]
  | cons p rest ih =>
    by_cases hq : p.1 = q
    · simp [getHeader, hq]
    · simp [getHeader, hq, ih]

theorem getHeader_objInsert_ne {α : Type} (m : List (String × α)) (k : String) (v : α)
    (q : String) (hne : q ≠ k) :
    getHeader (objInsert m k v) q = getHeader m q := by
  by_cases h : hasKey m k = true
  · simp only [objInsert, h, if_true]
    exact getHeader_replace_ne m k v q hne
  · rw [Bool.not_eq_true] at h
    simp only [objInsert, h, Bool.false_eq_true, if_false]
    exact getHeader_append_single_ne m k v q hne

theorem getHeader_objExtend_of_hasKey_false {α : Type} (ns : List (String × α)) :
    ∀ (m : List (String × α)) (k : String), hasKey ns k = false →
    getHeader (objExtend m ns) k = getHeader m k := by
  induction ns with
  | nil => intro m k _; rfl
  | cons p rest ih =>
    intro m k h
    have hk : ¬ (p.1 = k) := by
      intro hh
      simp [hasKey, hh] at h
    have h' : hasKey rest k = false := by simpa [hasKey, hk] using h
    calc getHeader (objExtend (objInsert m p.1 p.2) rest) k
        = getHeader (objInsert m p.1 p.2) k := ih _ k h'
      _ = getHeader m k := getHeader_objInsert_ne m p.1 p.2 k (fun hh => hk hh.symm)

theorem hasKey_eq_false_of_not_mem {α : Type} (m : List (String × α)) (k : String)
    (h : k ∉ m.map Prod.fst) : hasKey m k = false := by
  induction m with
  | nil => rfl
  | cons p rest ih =>
    simp only [List.map_cons, List.mem_cons, not_or] at h
    have hk : ¬ (p.1 = k) := fun hh => h.1 hh.symm
    simp [hasKey, hk, ih h.2]

theorem getHeader_objExtend_of_mem_nodup {α : Type} (ns : List (String × α)) :
    ∀ (m : List (String × α)) (k : String) (v : α),
    (ns.map Prod.fst).Nodup → (k, v) ∈ ns →
    getHeader (objExtend m ns) k = some v := by
  induction ns with
  | nil => intro _ _ _ _ h; cases h
  | cons p rest ih =>
    intro m k v hnd hmem
    simp only [List.map_cons, List.nodup_cons] at hnd
    rcases List.mem_cons.mp hmem with heq | hmem'
    · cases heq
      have hfalse : hasKey rest k = false :=
        hasKey_eq_false_of_not_mem rest k hnd.1
      calc getHeader (objExtend (objInsert m k v) rest) k
          = getHeader (objInsert m k v) k :=
            getHeader_objExtend_of_hasKey_false rest _ k hfalse
        _ = some v := getHeader_objInsert_self m k v
    · exact ih (objInsert m p.1 p.2) k v hnd.2 hmem'

/-! ### Request-level lookup helpers -/

theorem getHeader_buildRequest_miss (cfg : ClientConfig) (call : ApiCall) (k : String)
    (hcfg : hasKey (cfgHeaders cfg) k = false)
    (hcall : hasKey (callHeaders call) k = false) :
    getHeader (buildRequest cfg call).headers k
      = getHeader [("Content-Type", "application/json"), ("X-API-KEY", cfg.apiKey)] k := by
  have h1 : getHeader (buildRequest cfg call).headers k
      = getHeader (defaultHeaders cfg) k :=
    getHeader_objExtend_of_hasKey_false (callHeaders call) (defaultHeaders cfg) k hcall
  have h2 : getHeader (defaultHeaders cfg) k
      = getHeader [("Content-Type", "application/json"), ("X-API-KEY", cfg.apiKey)] k :=
    getHeader_objExtend_of_hasKey_false (cfgHeaders cfg) _ k hcfg
  exact h1.trans h2

theorem getHeader_buildRequest_call_hit (cfg : ClientConfig) (call : ApiCall)
    (k : String) (v : String) (h : callHeaders call = [(k, v)]) :
    getHeader (buildRequest cfg call).headers k = some v := by
  show getHeader (objExtend (defaultHeaders cfg) (callHeaders call)) k = some v
  rw [h]
  exact getHeader_objInsert_self (defaultHeaders cfg) k v

theorem callHeaders_no_apiKey (call : ApiCall) :
    hasKey (callHeaders call) "X-API-KEY" = false := by
  cases call <;> simp [callHeaders, hasKey]

theorem callHeaders_no_contentType (call : ApiCall) :
    hasKey (callHeaders call) "Content-Type" = false := by
  cases call <;> simp [callHeaders, hasKey]

/-! ### Claim theorems -/

/-- Claim C1, counterexample: constructing a client with the unrecognized
environment value LOCAL and no base-URL override does NOT fail; the
constructor is total and binds the client to the QA host, contradicting
the claim that construction fails with a configuration error before any
request. -/
theorem C1_counterexample :
    ("LOCAL" ≠ Environment.PROD ∧ "LOCAL" ≠ Environment.QA) ∧
    (mkBaseClient ⟨"k", "LOCAL", none, none, none, none⟩).baseUrl = qaBaseUrl := by
  refine ⟨⟨by decide, by decide⟩, rfl⟩

/-- Claim C1, amended: a configuration whose environment value is not the
PROD member and that supplies no base-URL override does not fail at
construction; the constructor silently binds the client to the QA host. -/
theorem C1_unrecognized_env_binds_qa (cfg : ClientConfig)
    (hb : cfg.baseUrl = none) (he : cfg.environment ≠ Environment.PROD) :
    (mkBaseClient cfg).baseUrl = qaBaseUrl := by
  show resolveBaseUrl cfg = qaBaseUrl
  simp [resolveBaseUrl, hb, envDefaultUrl, he]

/-- Witness for C1's amended theorem at a concrete configuration. -/
theorem C1_unrecognized_env_binds_qa_witness :
    (mkBaseClient ⟨"k", "STAGING", none, none, none, none⟩).baseUrl = qaBaseUrl :=
  C1_unrecognized_env_binds_qa ⟨"k", "STAGING", none, none, none, none⟩ rfl (by decide)

/-- Claim C3, counterexample: an explicitly supplied empty-string base-URL
override is NOT used verbatim; the JS truthiness guard treats it as absent
and the client binds to the environment-derived host instead. -/
theorem C3_counterexample :
    (mkBaseClient ⟨"k", Environment.PROD, some "", none, none, none⟩).baseUrl = prodBaseUrl ∧
    prodBaseUrl ≠ "" := by
  exact ⟨rfl, by decide⟩

/-- Claim C3, amended: a NON-EMPTY explicit baseUrl override is used
verbatim regardless of the environment value; with no override, PROD binds
the production host and QA binds the QA host. -/
theorem C3_baseUrl_resolution (cfg : ClientConfig) :
    (∀ u, cfg.baseUrl = some u → u ≠ "" → (mkBaseClient cfg).baseUrl = u) ∧
    ((cfg.baseUrl = none ∨ cfg.baseUrl = some "") →
      cfg.environment = Environment.PROD →
      (mkBaseClient cfg).baseUrl = prodBaseUrl) ∧
    ((cfg.baseUrl = none ∨ cfg.baseUrl = some "") →
      cfg.environment = Environment.QA →
      (mkBaseClient cfg).baseUrl = qaBaseUrl) := by
  refine ⟨?_, ?_, ?_⟩
  · intro u hu hne
    show resolveBaseUrl cfg = u
    simp [resolveBaseUrl, hu, hne]
  · intro hb he
    show resolveBaseUrl cfg = prodBaseUrl
    rcases hb with hb | hb
    · simp [resolveBaseUrl, hb, envDefaultUrl, he]
    · simp [resolveBaseUrl, hb, envDefaultUrl, he]
  · intro hb he
    show resolveBaseUrl cfg = qaBaseUrl
    rcases hb with hb | hb
    · simp [resolveBaseUrl, hb, envDefaultUrl, he, Environment.QA, Environment.PROD]
    · simp [resolveBaseUrl, hb, envDefaultUrl, he, Environment.QA, Environment.PROD]

/-- Witness for C3's amended theorem at concrete configurations,
including the empty-string-override fallback on the QA environment. -/
theorem C3_baseUrl_resolution_witness :
    (mkBaseClient ⟨"k", Environment.QA, some "http://localhost:3000", none, none, none⟩).baseUrl
      = "http://localhost:3000" ∧
    (mkBaseClient ⟨"k", Environment.PROD, none, none, none, none⟩).baseUrl = prodBaseUrl ∧
    (mkBaseClient ⟨"k", Environment.QA, some "", none, none, none⟩).baseUrl = qaBaseUrl ∧
    (mkBaseClient ⟨"k", Environment.QA, none, none, none, none⟩).baseUrl = qaBaseUrl :=
  ⟨(C3_baseUrl_resolution _).1 "http://localhost:3000" rfl (by decide),
   (C3_baseUrl_resolution _).2.1 (Or.inl rfl) rfl,
   (C3_baseUrl_resolution _).2.2 (Or.inr rfl) rfl,
   (C3_baseUrl_resolution _).2.2 (Or.inl rfl) rfl⟩

/-- Claim C4: a completed response with a non-2xx status makes the call's
outcome a rejection carrying the full response (status, headers, body)
verbatim; it is never a fulfilled envelope, and the interceptor layer
re-raises any rejection unchanged rather than wrapping it. -/
theorem C4_non2xx_rejects (T : Type) (lg : Logger) (r : AxiosResponse T)
    (h : isSuccessStatus r.status = false) :
    (completeCall lg (classifyResponse r)).1
      = Except.error (AxiosFailure.httpError r) ∧
    (¬ ∃ a, (completeCall lg (classifyResponse r)).1 = Except.ok a) ∧
    (∀ e : AxiosFailure T,
      (responseInterceptor lg (Except.error e)).1 = Except.error e) := by
  have hc : classifyResponse r = Except.error (AxiosFailure.httpError r) := by
    simp [classifyResponse, h]
  refine ⟨?_, ?_, ?_⟩
  · simp [completeCall, responseInterceptor, hc, Except.map]
  · rintro ⟨a, ha⟩
    simp [completeCall, responseInterceptor, hc, Except.map] at ha
  · intro e
    rfl

/-- Witness for C4 at a concrete 404 response with a remote error body. -/
theorem C4_non2xx_rejects_witness :
    (completeCall ⟨"accountkit", false⟩
        (classifyResponse (⟨"error: User not found", 404, []⟩ : AxiosResponse String))).1
      = Except.error (AxiosFailure.httpError ⟨"error: User not found", 404, []⟩) :=
  (C4_non2xx_rejects String ⟨"accountkit", false⟩
    ⟨"error: User not found", 404, []⟩ (by decide)).1

/-- Claim C9: toggling the debug flag never changes the dispatched request
nor the call's returned value or propagated error; logging is pure
observation. -/
theorem C9_debug_noninterference (envValues : List String) (cfg : ClientConfig)
    (call : ApiCall) :
    (dispatchRequest envValues (setDebug cfg (some true)) call).1
      = (dispatchRequest envValues (setDebug cfg (some false)) call).1 ∧
    ∀ (T : Type) (ns : String) (o : Except (AxiosFailure T) (AxiosResponse T)),
      (completeCall ⟨ns, true⟩ o).1 = (completeCall ⟨ns, false⟩ o).1 := by
  constructor
  · rfl
  · intro T ns o
    cases o <;> rfl

/-- Claim C8: in the logged (redacted) header set, a header's value is
replaced by the fixed mask string exactly when it occurs among the
process-environment values or the extra-headers configuration values, all
other values are logged unchanged, and the request interceptor returns the
wire request itself unmodified. -/
theorem C8_redaction (envValues : List String) (cfg : ClientConfig)
    (hs : List (String × String)) (k : String) (lg : Logger)
    (req : RequestEnvelope) :
    getHeader (redactSensitiveHeaders envValues cfg hs) k
      = (getHeader hs k).map
          (fun v => if v ∈ sensitiveValues envValues cfg then "********" else v) ∧
    (requestInterceptor envValues cfg lg req).1 = req := by
  constructor
  · induction hs with
    | nil => rfl
    | cons p rest ih =>
      by_cases hk : p.1 = k
      · by_cases hv : p.2 ∈ sensitiveValues envValues cfg
        · simp [redactSensitiveHeaders, getHeader, hk, hv]
        · simp [redactSensitiveHeaders, getHeader, hk, hv]
      · by_cases hv : p.2 ∈ sensitiveValues envValues cfg
        · simpa [redactSensitiveHeaders, getHeader, hk, hv] using ih
        · simpa [redactSensitiveHeaders, getHeader, hk, hv] using ih
  · rfl

/-- Claim C5: calculateAccountAddress issues a POST to the V2
counterfactual path with body of platform and userId, attaches no
bot-token or access-token header and no query parameters, a 200 response
resolves to an envelope holding the body unchanged with status 200, and
the declared response type omits the solana field. -/
theorem C5_calculateAccountAddress (platform : Platform) (userId : String)
    (cfg : ClientConfig)
    (h1 : hasKey (cfgHeaders cfg) "X-TG-BOT-TOKEN" = false)
    (h2 : hasKey (cfgHeaders cfg) "X-ACCESS-TOKEN" = false) :
    ((buildRequest cfg (ApiCall.calculateAccountAddress platform userId)).method
        = Method.post ∧
      (buildRequest cfg (ApiCall.calculateAccountAddress platform userId)).path
        = "/accountkit/v2/evm/calculateAccountAddress" ∧
      (buildRequest cfg (ApiCall.calculateAccountAddress platform userId)).query = [] ∧
      (buildRequest cfg (ApiCall.calculateAccountAddress platform userId)).body
        = Body.calcAddress ⟨platform.val, userId⟩) ∧
    (getHeader (buildRequest cfg (ApiCall.calculateAccountAddress platform userId)).headers
        "X-TG-BOT-TOKEN" = none ∧
      getHeader (buildRequest cfg (ApiCall.calculateAccountAddress platform userId)).headers
        "X-ACCESS-TOKEN" = none) ∧
    (∀ (T : Type) (data : T) (hs : List (String × String)) (lg : Logger),
      (completeCall lg (classifyResponse ⟨data, 200, hs⟩)).1
        = Except.ok ⟨data, 200, hs⟩) ∧
    "solana" ∉ responseFields (ApiCall.calculateAccountAddress platform userId) := by
  refine ⟨⟨rfl, rfl, rfl, rfl⟩, ⟨?_, ?_⟩, ?_, ?_⟩
  · rw [getHeader_buildRequest_miss cfg
      (ApiCall.calculateAccountAddress platform userId) _ h1 rfl]
    simp [getHeader]
  · rw [getHeader_buildRequest_miss cfg
      (ApiCall.calculateAccountAddress platform userId) _ h2 rfl]
    simp [getHeader]
  · intro T data hs lg
    rfl
  · simp [responseFields, calculateAccountAddressResponseFields,
      getSmartAccountAddressResponseFields]

/-- Witness for C5 at the spec's concrete scenario input. -/
theorem C5_calculateAccountAddress_witness :
    (buildRequest ⟨"k", "QA", none, none, none, none⟩
        (ApiCall.calculateAccountAddress Platform.TWITTER "44196397")).path
      = "/accountkit/v2/evm/calculateAccountAddress" ∧
    (buildRequest ⟨"k", "QA", none, none, none, none⟩
        (ApiCall.calculateAccountAddress Platform.TWITTER "44196397")).body
      = Body.calcAddress ⟨"twitter", "44196397"⟩ :=
  ⟨(C5_calculateAccountAddress Platform.TWITTER "44196397"
      ⟨"k", "QA", none, none, none, none⟩ rfl rfl).1.2.1,
   (C5_calculateAccountAddress Platform.TWITTER "44196397"
      ⟨"k", "QA", none, none, none, none⟩ rfl rfl).1.2.2.2⟩

/-- Claim C6: V2 submitEvmUserOperation posts the batched userOps body to
the V2 path with query of chainId and platform and the access-token
header, while V1 telegramBotSubmitEvmUserOperation posts one single user
operation to the V1 path with only the chainId query parameter and the
bot-token header. -/
theorem C6_submit_evm_shapes (cfg : ClientConfig) (platform : Platform)
    (accessToken : String) (userOps : List SubmitEvmUserOpRequest)
    (botToken : String) (userOp : SubmitEvmUserOpRequest) (chainId : Int) :
    ((buildRequest cfg
        (ApiCall.submitEvmUserOperation platform accessToken ⟨userOps⟩ chainId)).method
        = Method.post ∧
      (buildRequest cfg
        (ApiCall.submitEvmUserOperation platform accessToken ⟨userOps⟩ chainId)).path
        = "/accountkit/v2/platform/evm/submitUserOperation" ∧
      (buildRequest cfg
        (ApiCall.submitEvmUserOperation platform accessToken ⟨userOps⟩ chainId)).query
        = [("chainId", PVal.n chainId), ("platform", PVal.s platform.val)] ∧
      getHeader (buildRequest cfg
        (ApiCall.submitEvmUserOperation platform accessToken ⟨userOps⟩ chainId)).headers
        "X-ACCESS-TOKEN" = some accessToken ∧
      (buildRequest cfg
        (ApiCall.submitEvmUserOperation platform accessToken ⟨userOps⟩ chainId)).body
        = Body.platformUserOps ⟨userOps⟩) ∧
    ((buildRequest cfg
        (ApiCall.telegramBotSubmitEvmUserOperation botToken userOp chainId)).method
        = Method.post ∧
      (buildRequest cfg
        (ApiCall.telegramBotSubmitEvmUserOperation botToken userOp chainId)).path
        = "/accountkit/v1/telegrambot/evm/submitUserOperation" ∧
      (buildRequest cfg
        (ApiCall.telegramBotSubmitEvmUserOperation botToken userOp chainId)).query
        = [("chainId", PVal.n chainId)] ∧
      getHeader (buildRequest cfg
        (ApiCall.telegramBotSubmitEvmUserOperation botToken userOp chainId)).headers
        "X-TG-BOT-TOKEN" = some botToken ∧
      (buildRequest cfg
        (ApiCall.telegramBotSubmitEvmUserOperation botToken userOp chainId)).body
        = Body.evmUserOp userOp) := by
  refine ⟨⟨rfl, rfl, rfl, ?_, rfl⟩, ⟨rfl, rfl, rfl, ?_, rfl⟩⟩
  · exact getHeader_buildRequest_call_hit cfg _ _ accessToken rfl
  · exact getHeader_buildRequest_call_hit cfg _ _ botToken rfl

/-- Claim C7: V1 telegramBotSubmitSolanaTransaction posts to the V1
solana path with the network in the query, the serialized transaction in
the body and the bot-token header, with no access-token header and no
platform query parameter. -/
theorem C7_v1_solana_submit (cfg : ClientConfig) (botToken : String)
    (ser : String) (network : SolanaNetwork)
    (h : hasKey (cfgHeaders cfg) "X-ACCESS-TOKEN" = false) :
    (buildRequest cfg
        (ApiCall.telegramBotSubmitSolanaTransaction botToken ser network)).method
      = Method.post ∧
    (buildRequest cfg
        (ApiCall.telegramBotSubmitSolanaTransaction botToken ser network)).path
      = "/accountkit/v1/telegrambot/solana/submitTransaction" ∧
    (buildRequest cfg
        (ApiCall.telegramBotSubmitSolanaTransaction botToken ser network)).query
      = [("network", PVal.s network.val)] ∧
    (buildRequest cfg
        (ApiCall.telegramBotSubmitSolanaTransaction botToken ser network)).body
      = Body.solanaTx ⟨ser⟩ ∧
    getHeader (buildRequest cfg
        (ApiCall.telegramBotSubmitSolanaTransaction botToken ser network)).headers
      "X-TG-BOT-TOKEN" = some botToken ∧
    getHeader (buildRequest cfg
        (ApiCall.telegramBotSubmitSolanaTransaction botToken ser network)).headers
      "X-ACCESS-TOKEN" = none ∧
    hasKey (buildRequest cfg
        (ApiCall.telegramBotSubmitSolanaTransaction botToken ser network)).query
      "platform" = false := by
  refine ⟨rfl, rfl, rfl, rfl, ?_, ?_, ?_⟩
  · exact getHeader_buildRequest_call_hit cfg _ _ botToken rfl
  · rw [getHeader_buildRequest_miss cfg _ _ h (by simp [callHeaders, hasKey])]
    simp [getHeader]
  · simp [buildRequest, callParams, hasKey]

/-- Witness for C7 at a concrete mainnet submission. -/
theorem C7_v1_solana_submit_witness :
    getHeader (buildRequest ⟨"k", "QA", none, none, none, none⟩
        (ApiCall.telegramBotSubmitSolanaTransaction "bt" "dGVzdA"
          SolanaNetwork.SOLANA_MAINNET)).headers "X-TG-BOT-TOKEN" = some "bt" ∧
    getHeader (buildRequest ⟨"k", "QA", none, none, none, none⟩
        (ApiCall.telegramBotSubmitSolanaTransaction "bt" "dGVzdA"
          SolanaNetwork.SOLANA_MAINNET)).headers "X-ACCESS-TOKEN" = none :=
  ⟨(C7_v1_solana_submit ⟨"k", "QA", none, none, none, none⟩ "bt" "dGVzdA"
      SolanaNetwork.SOLANA_MAINNET rfl).2.2.2.2.1,
   (C7_v1_solana_submit ⟨"k", "QA", none, none, none, none⟩ "bt" "dGVzdA"
      SolanaNetwork.SOLANA_MAINNET rfl).2.2.2.2.2.1⟩

/-- Claim C2, counterexample: a configuration whose extra-headers mapping
itself binds X-API-KEY makes the outbound request carry the extra-headers
value, not the configured apiKey, so the claim fails as universally
stated. -/
theorem C2_counterexample :
    getHeader (buildRequest ⟨"real-key", "QA", none, none, none,
        some [("X-API-KEY", "shadow-key")]⟩
        (ApiCall.telegramBotGetSmartAccounts "bt")).headers "X-API-KEY"
      = some "shadow-key" ∧
    getHeader (buildRequest ⟨"real-key", "QA", none, none, none,
        some [("X-API-KEY", "shadow-key")]⟩
        (ApiCall.telegramBotGetSmartAccounts "bt")).headers "X-API-KEY"
      ≠ some "real-key" := by
  exact ⟨rfl, by decide⟩

/-- Claim C2, amended: provided the extra-headers configuration binds none
of the three auth header keys itself, every method's outbound request
carries X-API-KEY equal to the configured apiKey, and the bot-token and
access-token headers are present exactly on their respective methods with
the caller-supplied token. -/
theorem C2_api_key_header (cfg : ClientConfig) (call : ApiCall)
    (h1 : hasKey (cfgHeaders cfg) "X-API-KEY" = false)
    (h2 : hasKey (cfgHeaders cfg) "X-TG-BOT-TOKEN" = false)
    (h3 : hasKey (cfgHeaders cfg) "X-ACCESS-TOKEN" = false) :
    getHeader (buildRequest cfg call).headers "X-API-KEY" = some cfg.apiKey ∧
    getHeader (buildRequest cfg call).headers "X-TG-BOT-TOKEN"
      = expectedBotToken call ∧
    getHeader (buildRequest cfg call).headers "X-ACCESS-TOKEN"
      = expectedAccessToken call := by
  cases call <;>
    refine ⟨?_, ?_, ?_⟩ <;>
    (try simp only [expectedBotToken, expectedAccessToken]) <;>
    first
      | exact getHeader_buildRequest_call_hit cfg _ _ _ rfl
      | (rw [getHeader_buildRequest_miss cfg _ _ h1 (by simp [callHeaders, hasKey])]
         simp [getHeader])
      | (rw [getHeader_buildRequest_miss cfg _ _ h2 (by simp [callHeaders, hasKey])]
         simp [getHeader])
      | (rw [getHeader_buildRequest_miss cfg _ _ h3 (by simp [callHeaders, hasKey])]
         simp [getHeader])

/-- Witness for C2's amended theorem on a V2 token-authenticated call. -/
theorem C2_api_key_header_witness :
    getHeader (buildRequest ⟨"k", "QA", none, none, none, none⟩
        (ApiCall.getSmartAccountDetails Platform.GITHUB "tok")).headers
      "X-API-KEY" = some "k" ∧
    getHeader (buildRequest ⟨"k", "QA", none, none, none, none⟩
        (ApiCall.getSmartAccountDetails Platform.GITHUB "tok")).headers
      "X-ACCESS-TOKEN" = some "tok" :=
  ⟨(C2_api_key_header ⟨"k", "QA", none, none, none, none⟩
      (ApiCall.getSmartAccountDetails Platform.GITHUB "tok") rfl rfl rfl).1,
   (C2_api_key_header ⟨"k", "QA", none, none, none, none⟩
      (ApiCall.getSmartAccountDetails Platform.GITHUB "tok") rfl rfl rfl).2.2⟩

/-- Claim C10: because the extra-headers mapping is spread after the
built-in defaults, an extra-headers binding of X-API-KEY (or Content-Type)
replaces the apiKey-derived (or application/json) default on every
subsequent request. -/
theorem C10_extra_headers_override (cfg : ClientConfig)
    (hs : List (String × String)) (call : ApiCall)
    (hcfg : cfg.headers = some hs) (hnd : (hs.map Prod.fst).Nodup) :
    (∀ v, ("X-API-KEY", v) ∈ hs →
      getHeader (buildRequest cfg call).headers "X-API-KEY" = some v) ∧
    (∀ v, ("Content-Type", v) ∈ hs →
      getHeader (buildRequest cfg call).headers "Content-Type" = some v) := by
  have hch : cfgHeaders cfg = hs := by simp [cfgHeaders, hcfg]
  constructor
  · intro v hv
    have hmiss : getHeader (buildRequest cfg call).headers "X-API-KEY"
        = getHeader (defaultHeaders cfg) "X-API-KEY" :=
      getHeader_objExtend_of_hasKey_false _ _ _ (callHeaders_no_apiKey call)
    rw [hmiss]
    simp only [defaultHeaders, hch]
    exact getHeader_objExtend_of_mem_nodup hs _ _ v hnd hv
  · intro v hv
    have hmiss : getHeader (buildRequest cfg call).headers "Content-Type"
        = getHeader (defaultHeaders cfg) "Content-Type" :=
      getHeader_objExtend_of_hasKey_false _ _ _ (callHeaders_no_contentType call)
    rw [hmiss]
    simp only [defaultHeaders, hch]
    exact getHeader_objExtend_of_mem_nodup hs _ _ v hnd hv

/-- Witness for C10 at a concrete shadowing configuration. -/
theorem C10_extra_headers_override_witness :
    getHeader (buildRequest ⟨"legit", "QA", none, none, none,
        some [("X-API-KEY", "override"), ("Content-Type", "text/plain")]⟩
        (ApiCall.calculateAccountAddress Platform.TWITTER "u")).headers
      "X-API-KEY" = some "override" ∧
    getHeader (buildRequest ⟨"legit", "QA", none, none, none,
        some [("X-API-KEY", "override"), ("Content-Type", "text/plain")]⟩
        (ApiCall.calculateAccountAddress Platform.TWITTER "u")).headers
      "Content-Type" = some "text/plain" := by
  have h := C10_extra_headers_override
      ⟨"legit", "QA", none, none, none,
        some [("X-API-KEY", "override"), ("Content-Type", "text/plain")]⟩
      [("X-API-KEY", "override"), ("Content-Type", "text/plain")]
      (ApiCall.calculateAccountAddress Platform.TWITTER "u") rfl (by decide)
  exact ⟨h.1 "override" (by decide), h.2 "text/plain" (by decide)⟩

end AccountKit
